import Mathlib

/-!
Verification of the restaurant table-reservation core (availability engine,
booking writer, time-interval utility) of the RestaurantBoeking repository.

The JavaScript/TypeScript source manipulates wall-clock times as "HH:MM"
strings: it parses them with String.split(':') and Number(), does integer
arithmetic with Math.floor and the JS % operator (truncated remainder), and
renders with Number.toString().padStart(2, '0').  Times are compared with the
JS < operator on strings, i.e. lexicographically by character code.  The
embedding below reproduces exactly this pipeline: JS Math.floor division is
Int.fdiv, the JS % operator is Int.tmod, Number.toString on an integer is
decimal rendering with a leading minus sign, and JS string comparison is
Lean's lexicographic String order (identical on these character lists).
Number() applied to a non-numeric string yields NaN in JS; strings fed to the
parser by the claims under verification are always numeric, and the model
returns 0 outside that domain.
-/

/-- The character for a decimal digit d (0-9), as produced by Number.toString. -/
def digitChar (d : Nat) : Char := Char.ofNat (48 + d)

/-- Fuel-indexed most-significant-first decimal digits of a natural number,
modelling the digit loop of Number.toString.  A fuel of n+1 always suffices
for the number n. -/
def natDigitsAux : Nat → Nat → List Char
  | 0, _ => []
  | fuel + 1, n =>
    if n < 10 then [digitChar n]
    else natDigitsAux fuel (n / 10) ++ [digitChar (n % 10)]

/-- Decimal digits of a natural number, most significant first. -/
def natDigits (n : Nat) : List Char := natDigitsAux (n + 1) n

/-- Model of JS Number.prototype.toString for a non-negative integer. -/
def natToString (n : Nat) : String := ⟨natDigits n⟩

/-- Model of JS Number.prototype.toString for an integer: decimal digits with
a leading minus sign for negative values. -/
def intToString (i : Int) : String :=
  if i < 0 then "-" ++ natToString i.natAbs else natToString i.toNat

/-- Model of JS String.prototype.padStart(2, '0'): left-pad with zeros to
length two (strings already of length two or more are returned unchanged). -/
def padStart2 (s : String) : String :=
  if s.length < 2 then ⟨List.replicate (2 - s.length) '0' ++ s.data⟩ else s

/-- Model of JS String.prototype.split(':') on the underlying character list:
the list of colon-separated fragments (splitting an empty string gives one
empty fragment, as in JS). -/
def splitOnColon : List Char → List (List Char)
  | [] => [[]]
  | c :: cs =>
    if c = ':' then [] :: splitOnColon cs
    else
      match splitOnColon cs with
      | [] => [[c]]
      | p :: ps => (c :: p) :: ps

/-- One step of decimal accumulation: previous value times ten plus the value
of the next character (its code point minus 48). -/
def jsDigitStep (a : Int) (c : Char) : Int := a * 10 + ((c.toNat : Int) - 48)

/-- Model of JS Number() on an unsigned decimal digit string. -/
def jsNatNumber (l : List Char) : Int := l.foldl jsDigitStep 0

/-- Model of JS Number() on a decimal integer string with an optional leading
minus sign (0 on the empty string, as Number('') is 0 in JS). -/
def jsNumber (l : List Char) : Int :=
  match l with
  | [] => 0
  | c :: cs => if c = '-' then -(jsNatNumber cs) else jsNatNumber (c :: cs)

/-- Source: the parsing step of addMinutesToTime -
const [hours, mins] = timeStr.split(':').map(Number); hours * 60 + mins.
The result is the (possibly negative) minutes value denoted by the string. -/
def parseTime (s : String) : Int :=
  match splitOnColon s.data with
  | h :: m :: _ => jsNumber h * 60 + jsNumber m
  | _ => 0

/-- Source: the rendering step of addMinutesToTime -
newHours = Math.floor(totalMinutes / 60) (floor division, Int.fdiv);
newMins = totalMinutes % 60 (JS truncated remainder, Int.tmod);
then both parts are rendered with toString().padStart(2, '0') and joined
with a colon. -/
def minutesToTime (totalMinutes : Int) : String :=
  padStart2 (intToString (Int.fdiv totalMinutes 60)) ++ ":" ++
    padStart2 (intToString (Int.tmod totalMinutes 60))

/-- Source (part_000 lines 167-173 and part_012 lines 76-82): addMinutesToTime
parses the "HH:MM" string, adds the (possibly negative) minute delta, and
re-renders the total. -/
def addMinutesToTime (timeStr : String) (minutes : Int) : String :=
  minutesToTime (parseTime timeStr + minutes)

/-- The JS < operator on strings: lexicographic comparison of the character
sequences by code point.  This is precisely the order Lean places on String
(String.lt is List.lt on the character data); the test is phrased on the
data lists so that it evaluates by structural recursion. -/
def jsStrLt (a b : String) : Bool := decide (a.data < b.data)

/-- Source (part_000 lines 162-164 and part_012 lines 71-73): hasTimeOverlap
returns startTime1 < endTime2 && startTime2 < endTime1, where < is the JS
string comparison, i.e. lexicographic order by character code. -/
def hasTimeOverlap (startTime1 endTime1 startTime2 endTime2 : String) : Bool :=
  jsStrLt startTime1 endTime2 && jsStrLt startTime2 endTime1

/-- Source (part_000 lines 158-159, part_012 lines 67-68): the hard-coded
standard reservation duration in hours. -/
def RESERVATION_DURATION_HOURS : Nat := 2

/-- Source (part_000 lines 158-159, part_012 lines 67-68): the hard-coded
buffer in minutes before and after a reservation. -/
def BUFFER_MINUTES : Nat := 15

/-- Reservation lifecycle statuses appearing in the repository. -/
inductive RStatus where
  | pending
  | confirmed
  | arrived
  | in_progress
  | completed
  | cancelled
deriving DecidableEq

/-- Source (part_000 lines 196 and 433, part_012 lines 103 and 173): the set
of statuses the availability queries select - confirmed, arrived and
in_progress occupy a table. -/
def occupying : RStatus → Bool
  | .confirmed => true
  | .arrived => true
  | .in_progress => true
  | _ => false

/-- A seating unit (tables relation): opaque id, display name, seat count. -/
structure Table where
  id : String
  name : String
  seats : Nat
deriving DecidableEq

/-- A reservation row as stored in the reservations relation.  The
duration_hours and buffer_minutes columns are nullable, hence Option. -/
structure Reservation where
  id : String
  table_id : String
  customer_name : String
  customer_email : Option String
  customer_phone : Option String
  guests : Int
  date : String
  time : String
  duration_hours : Option Nat
  buffer_minutes : Option Nat
  notes : Option String
  status : RStatus
deriving DecidableEq

/-- Model of the JS expression value || dflt on a nullable numeric column:
null/undefined and 0 are falsy, so both fall back to the default. -/
def jsOrNat (v : Option Nat) (dflt : Nat) : Nat :=
  match v with
  | some n => if n = 0 then dflt else n
  | none => dflt

/-- Source (part_000 lines 186-188, 206-208; part_012 lines 111-113,
127-129): the busy window of a reservation at a given time - buffer start,
and buffer end computed by first adding duration*60 and then the buffer. -/
def computeBusyWindow (time : String) (durationHours bufferMinutes : Nat) :
    String × String :=
  (addMinutesToTime time (-(bufferMinutes : Int)),
   addMinutesToTime (addMinutesToTime time ((durationHours * 60 : Nat) : Int))
     (bufferMinutes : Int))

/-- The busy window of a stored reservation, with the || defaults applied to
its nullable duration and buffer columns, exactly as every availability loop
in the source computes it. -/
def existingBusyWindow (r : Reservation) : String × String :=
  computeBusyWindow r.time (jsOrNat r.duration_hours RESERVATION_DURATION_HOURS)
    (jsOrNat r.buffer_minutes BUFFER_MINUTES)

/-- The busy window of the requested slot, always computed with the default
duration and buffer constants. -/
def requestWindow (time : String) : String × String :=
  computeBusyWindow time RESERVATION_DURATION_HOURS BUFFER_MINUTES

/-- The per-reservation conflict test every availability loop performs:
overlap of the requested window with the reservation's busy window. -/
def tableHasConflict (reqWin : String × String) (r : Reservation) : Bool :=
  hasTimeOverlap reqWin.1 reqWin.2 (existingBusyWindow r).1 (existingBusyWindow r).2

/-- Source (part_000 lines 407-463, GET /api/tables/available): filter the
day's occupying reservations, then keep each table having no reservation
whose busy window overlaps the requested busy window. -/
def availableTablesServer (tables : List Table) (reservations : List Reservation)
    (date time : String) : List Table :=
  let reqWin := requestWindow time
  let allReservations :=
    reservations.filter (fun r => decide (r.date = date) && occupying r.status)
  tables.filter (fun table =>
    let tableReservations :=
      allReservations.filter (fun r => decide (r.table_id = table.id))
    !(tableReservations.any (fun r => tableHasConflict reqWin r)))

/-- Source (part_012 lines 151-216, interval-based checkAvailability): the
available-table computation of the client booking flow; identical interval
logic to the server endpoint. -/
def checkAvailability012 (tables : List Table) (reservations : List Reservation)
    (date time : String) : List Table :=
  let reqWin := requestWindow time
  let allReservations :=
    reservations.filter (fun r => decide (r.date = date) && occupying r.status)
  tables.filter (fun table =>
    let tableReservations :=
      allReservations.filter (fun r => decide (r.table_id = table.id))
    !(tableReservations.any (fun r => tableHasConflict reqWin r)))

/-- Source (part_011 lines 62-104, whole-day checkAvailability): the query
chains .eq('status','confirmed') with .or('status.eq.arrived,status.eq.in_progress');
PostgREST combines chained filters conjunctively, so the status condition is
status = confirmed AND (status = arrived OR status = in_progress).  A table is
kept when its id is not among the table_ids of the rows so selected. -/
def checkAvailability011 (tables : List Table) (reservations : List Reservation)
    (date : String) : List Table :=
  let occupiedReservations :=
    reservations.filter (fun r =>
      decide (r.date = date) &&
        (decide (r.status = .confirmed) &&
          (decide (r.status = .arrived) || decide (r.status = .in_progress))))
  let occupiedTableIds := occupiedReservations.map (fun r => r.table_id)
  tables.filter (fun table => !(occupiedTableIds.any (fun i => decide (i = table.id))))

/-- Source (part_012 lines 199-201, also part_011 lines 88-89): among the
candidate tables, sort ascending by seat count with the stable JS Array.sort
and take the first element ([0], undefined - i.e. none - on the empty array).
JS Array.prototype.sort is a stable sort, modelled by insertion sort with the
comparator (a, b) => a.seats - b.seats, i.e. the relation seats-le. -/
def chooseBestTable (candidates : List Table) : Option Table :=
  (List.insertionSort (fun a b => a.seats ≤ b.seats) candidates).head?

/-- Specification-side description of the head of a stable ascending sort:
the first element of the list attaining the minimal seat count.  Used to
state the amended best-table claim; compared against chooseBestTable. -/
def firstMinBySeats : List Table → Option Table
  | [] => none
  | t :: ts =>
    match firstMinBySeats ts with
    | none => some t
    | some u => if t.seats ≤ u.seats then some t else some u

/-- The request body of POST /api/reservations.  The required fields are
modelled as plain values whose JS-falsy cases (absent or empty string, absent
or zero number) are the empty string and the integer zero; the optional
fields stay Option. -/
structure CreateRequest where
  table_id : String
  customer_name : String
  customer_email : Option String
  customer_phone : Option String
  guests : Int
  date : String
  time : String
  notes : Option String
deriving DecidableEq

/-- Source (part_000 lines 180-183): the validation guard
if (!table_id || !customer_name || !guests || !date || !time) - a pure JS
truthiness check on the five required fields. -/
def validRequest (req : CreateRequest) : Bool :=
  !(decide (req.table_id = "") || decide (req.customer_name = "") ||
    decide (req.guests = 0) || decide (req.date = "") || decide (req.time = ""))

/-- Outcome of a createReservation call: HTTP 400 on validation failure, HTTP
400 with the conflict message (carrying the requested buffer window and the
conflicting reservation's service window) on overlap, or the inserted row. -/
inductive CreateOutcome where
  | validationError
  | conflictError (reqStart reqEnd existingTime existingEnd : String)
  | created (r : Reservation)
deriving DecidableEq

/-- The row POST /api/reservations inserts (part_000 lines 218-232): request
fields plus the constant duration and buffer and status confirmed.  The id is
server-assigned and irrelevant to the claims; the model leaves it empty. -/
def newReservationRow (req : CreateRequest) : Reservation :=
  { id := ""
    table_id := req.table_id
    customer_name := req.customer_name
    customer_email := req.customer_email
    customer_phone := req.customer_phone
    guests := req.guests
    date := req.date
    time := req.time
    duration_hours := some RESERVATION_DURATION_HOURS
    buffer_minutes := some BUFFER_MINUTES
    notes := req.notes
    status := .confirmed }

/-- Source (part_000 lines 191-196): the fresh fetch of the candidate table's
same-day reservations in occupying statuses. -/
def fetchOccupying (db : List Reservation) (tableId date : String) :
    List Reservation :=
  db.filter (fun r =>
    decide (r.table_id = tableId) && decide (r.date = date) && occupying r.status)

/-- Source (part_000 lines 176-262, POST /api/reservations): validate, fetch
the candidate table's same-day occupying reservations, return the conflict
error of the first overlapping one (state unchanged), otherwise insert
exactly one new row.  The database is modelled as the list of reservation
rows, returned alongside the outcome. -/
def createReservation (db : List Reservation) (req : CreateRequest) :
    CreateOutcome × List Reservation :=
  if !(validRequest req) then (.validationError, db)
  else
    match (fetchOccupying db req.table_id req.date).find?
        (fun r => tableHasConflict (requestWindow req.time) r) with
    | some r =>
      (.conflictError (requestWindow req.time).1 (requestWindow req.time).2 r.time
        (addMinutesToTime r.time
          (((jsOrNat r.duration_hours RESERVATION_DURATION_HOURS) * 60 : Nat) : Int)), db)
    | none => (.created (newReservationRow req), db ++ [newReservationRow req])

/-- The body of PATCH /api/reservations/:id - each field is added to the
update only when present in the request. -/
structure UpdateRequest where
  status : Option RStatus
  customer_name : Option String
  customer_email : Option String
  customer_phone : Option String
  guests : Option Int
  date : Option String
  time : Option String
  notes : Option String
deriving DecidableEq

/-- Source (part_000 lines 270-278): the updateData object - a supplied field
replaces the stored one, an unsupplied field is left untouched. -/
def applyUpdate (r : Reservation) (u : UpdateRequest) : Reservation :=
  { r with
    status := u.status.getD r.status
    customer_name := u.customer_name.getD r.customer_name
    customer_email := match u.customer_email with
      | some v => some v
      | none => r.customer_email
    customer_phone := match u.customer_phone with
      | some v => some v
      | none => r.customer_phone
    guests := u.guests.getD r.guests
    date := u.date.getD r.date
    time := u.time.getD r.time
    notes := match u.notes with
      | some v => some v
      | none => r.notes }

/-- The update ... eq('id', id) step: every row with the given id receives
the partial update, every other row is untouched. -/
def updateReservationById (db : List Reservation) (id : String)
    (u : UpdateRequest) : List Reservation :=
  db.map (fun r => if r.id = id then applyUpdate r u else r)

/-- Source (part_000 lines 264-299, PATCH /api/reservations/:id): apply the
partial update to the matching row unconditionally and return the updated row
(single() succeeds exactly when one row matches the id). -/
def patchReservation (db : List Reservation) (id : String) (u : UpdateRequest) :
    Option Reservation × List Reservation :=
  match (updateReservationById db id u).filter (fun r => decide (r.id = id)) with
  | [r] => (some r, updateReservationById db id u)
  | _ => (none, updateReservationById db id u)

/-- The conceptual updateReservationStatus(id, newStatus) request: only the
status field is supplied. -/
def statusOnlyUpdate (s : RStatus) : UpdateRequest :=
  { status := some s
    customer_name := none
    customer_email := none
    customer_phone := none
    guests := none
    date := none
    time := none
    notes := none }

/-- A menu catalog entry as used by the phone-order flow (price is a JS
number; modelled as a rational, which is faithful here because the claims
concern the data flow of the price, not rounding). -/
structure MenuItem where
  id : String
  name : String
  price : Rat
deriving DecidableEq

/-- An in-progress order line of the phone-order screen: a reference to the
menu item object, a quantity, and an optional note. -/
structure OrderItem where
  menu_item : MenuItem
  quantity : Nat
  notes : Option String
deriving DecidableEq

/-- A stored line item of an order row: the menu item is referenced by id
only, and the price is a snapshot copied at order time. -/
structure OrderLine where
  menu_item_id : String
  quantity : Nat
  notes : Option String
  price : Rat
deriving DecidableEq

/-- An order row as inserted by the phone-order flow. -/
structure PhoneOrder where
  reservation_id : String
  table_id : String
  status : String
  total_amount : Rat
  items : List OrderLine
deriving DecidableEq

/-- Source (PhoneOrders.tsx lines 190-193): calculateTotal - the sum over the
order items of menu price times quantity. -/
def calculateTotal (orderItems : List OrderItem) : Rat :=
  orderItems.foldl (fun total item => total + item.menu_item.price * (item.quantity : Rat)) 0

/-- Source (PhoneOrders.tsx lines 212-228): the inserted order row - status
pending, total_amount from calculateTotal, and each line item carrying the
menu item id, quantity, note, and the menu price copied as a snapshot. -/
def createPhoneOrder (reservationId tableId : String)
    (orderItems : List OrderItem) : PhoneOrder :=
  { reservation_id := reservationId
    table_id := tableId
    status := "pending"
    total_amount := calculateTotal orderItems
    items := orderItems.map (fun item =>
      { menu_item_id := item.menu_item.id
        quantity := item.quantity
        notes := item.notes
        price := item.menu_item.price }) }

/-- The sum of price times quantity over stored order lines, the
specification's reading of the stored total. -/
def lineTotal (lines : List OrderLine) : Rat :=
  lines.foldl (fun total l => total + l.price * (l.quantity : Rat)) 0

/-- Sample table for the concrete scenarios: Scenario A's table T1 with two
seats. -/
def sampleTable1 : Table := { id := "t1", name := "T1", seats := 2 }

/-- Sample reservation for the concrete scenarios: confirmed, 19:00, duration
two hours, buffer fifteen minutes, busy window 18:45-21:15. -/
def sampleRes1900 : Reservation :=
  { id := "r1"
    table_id := "t1"
    customer_name := "Ann"
    customer_email := none
    customer_phone := none
    guests := 2
    date := "2025-01-01"
    time := "19:00"
    duration_hours := some 2
    buffer_minutes := some 15
    notes := none
    status := .confirmed }

/-- Sample pending reservation on the sample table: same slot as
sampleRes1900 but in the non-occupying pending status. -/
def sampleResPending : Reservation :=
  { id := "r2"
    table_id := "t1"
    customer_name := "Bob"
    customer_email := none
    customer_phone := none
    guests := 2
    date := "2025-01-01"
    time := "19:00"
    duration_hours := some 2
    buffer_minutes := some 15
    notes := none
    status := .pending }

/-- Sample booking request with all required fields present and truthy. -/
def sampleRequest : CreateRequest :=
  { table_id := "t1"
    customer_name := "Cas"
    customer_email := none
    customer_phone := none
    guests := 2
    date := "2025-01-01"
    time := "19:00"
    notes := none }

/-- Sample booking request with a negative party size: every required field
is JS-truthy, so the validation guard does not reject it. -/
def reqNegGuests : CreateRequest :=
  { table_id := "t1"
    customer_name := "Dee"
    customer_email := none
    customer_phone := none
    guests := -1
    date := "2025-01-01"
    time := "19:00"
    notes := none }

/-- Sample booking request with an empty customer name (JS-falsy). -/
def reqNoName : CreateRequest :=
  { table_id := "t1"
    customer_name := ""
    customer_email := none
    customer_phone := none
    guests := 2
    date := "2025-01-01"
    time := "19:00"
    notes := none }

/-- Sample four-seat table named A, identifier t1. -/
def tblA : Table := { id := "t1", name := "A", seats := 4 }

/-- Sample four-seat table named B, identifier t2; same capacity as tblA. -/
def tblB : Table := { id := "t2", name := "B", seats := 4 }

/-! ## Lemmas about the decimal digit rendering -/

theorem digitChar_toNat : ∀ d, d < 10 → (digitChar d).toNat = 48 + d := by decide

theorem natDigitsAux_range : ∀ fuel n, ∀ c ∈ natDigitsAux fuel n,
    48 ≤ c.toNat ∧ c.toNat ≤ 57 := by
  intro fuel
  induction fuel with
  | zero => intro n c hc; simp [natDigitsAux] at hc
  | succ fuel ih =>
    intro n c hc
    by_cases h : n < 10
    · simp only [natDigitsAux, if_pos h, List.mem_singleton] at hc
      subst hc
      have := digitChar_toNat n h
      omega
    · simp only [natDigitsAux, if_neg h, List.mem_append, List.mem_singleton] at hc
      rcases hc with hc | hc
      · exact ih _ _ hc
      · subst hc
        have := digitChar_toNat (n % 10) (by omega)
        omega

theorem natDigitsAux_small {fuel n : Nat} (hf : 0 < fuel) (h : n < 10) :
    natDigitsAux fuel n = [digitChar n] := by
  cases fuel with
  | zero => omega
  | succ f => simp [natDigitsAux, h]

theorem jsNatNumber_natDigitsAux : ∀ fuel n, n < fuel →
    jsNatNumber (natDigitsAux fuel n) = n := by
  intro fuel
  induction fuel with
  | zero => intro n h; omega
  | succ fuel ih =>
    intro n h
    by_cases h10 : n < 10
    · simp only [natDigitsAux, if_pos h10, jsNatNumber, List.foldl, jsDigitStep]
      have := digitChar_toNat n h10
      omega
    · have hn : n / 10 < fuel := by omega
      have ihq := ih (n / 10) hn
      simp only [natDigitsAux, if_neg h10, jsNatNumber, List.foldl_append,
        List.foldl] at ihq ⊢
      rw [ihq, jsDigitStep, digitChar_toNat (n % 10) (by omega)]
      omega

theorem jsNatNumber_natDigits (n : Nat) : jsNatNumber (natDigits n) = n :=
  jsNatNumber_natDigitsAux (n + 1) n (by omega)

theorem natDigits_range (n : Nat) : ∀ c ∈ natDigits n, 48 ≤ c.toNat ∧ c.toNat ≤ 57 :=
  natDigitsAux_range (n + 1) n

theorem ne_colon_of_digit {c : Char} (h : 48 ≤ c.toNat ∧ c.toNat ≤ 57) : c ≠ ':' := by
  intro he
  rw [he] at h
  have hv : (':').toNat = 58 := rfl
  omega

theorem jsNumber_eq_jsNatNumber {l : List Char}
    (h : ∀ c ∈ l, 48 ≤ c.toNat ∧ c.toNat ≤ 57) : jsNumber l = jsNatNumber l := by
  cases l with
  | nil => rfl
  | cons c cs =>
    have hc := h c (by simp)
    have hne : c ≠ '-' := by
      intro he
      rw [he] at hc
      have hv : ('-').toNat = 45 := rfl
      omega
    simp [jsNumber, hne]

theorem padStart2_data (s : String) :
    ∃ k, (padStart2 s).data = List.replicate k '0' ++ s.data := by
  unfold padStart2
  by_cases h : s.length < 2
  · exact ⟨2 - s.length, by simp [h]⟩
  · exact ⟨0, by simp [h]⟩

theorem foldl_replicate_zero : ∀ k, List.foldl jsDigitStep 0 (List.replicate k '0') = 0 := by
  intro k
  induction k with
  | zero => rfl
  | succ k ih =>
    have hstep : jsDigitStep 0 '0' = 0 := by decide
    simpa [List.replicate_succ, hstep] using ih

theorem jsNatNumber_replicate_append (k : Nat) (l : List Char) :
    jsNatNumber (List.replicate k '0' ++ l) = jsNatNumber l := by
  simp [jsNatNumber, List.foldl_append, foldl_replicate_zero]

/-! ## Lemmas about splitting on the colon -/

theorem splitOnColon_no_colon : ∀ l : List Char, (∀ c ∈ l, c ≠ ':') →
    splitOnColon l = [l] := by
  intro l
  induction l with
  | nil => intro; rfl
  | cons c cs ih =>
    intro h
    have hc : c ≠ ':' := h c (by simp)
    have h2 := ih (fun d hd => h d (by simp [hd]))
    simp [splitOnColon, hc, h2]

theorem splitOnColon_append (A B : List Char) (hA : ∀ c ∈ A, c ≠ ':') :
    splitOnColon (A ++ ':' :: B) = A :: splitOnColon B := by
  induction A with
  | nil => simp [splitOnColon]
  | cons c cs ih =>
    have hc : c ≠ ':' := hA c (by simp)
    have h2 := ih (fun d hd => hA d (by simp [hd]))
    simp [splitOnColon, hc, h2]

/-! ## The parse-render roundtrip -/

theorem parseTime_pair (a b : Nat) :
    parseTime (padStart2 (natToString a) ++ ":" ++ padStart2 (natToString b)) =
      (a : Int) * 60 + b := by
  obtain ⟨k1, h1⟩ := padStart2_data (natToString a)
  obtain ⟨k2, h2⟩ := padStart2_data (natToString b)
  have hda : (natToString a).data = natDigits a := rfl
  have hdb : (natToString b).data = natDigits b := rfl
  rw [hda] at h1
  rw [hdb] at h2
  have hrange1 : ∀ c ∈ List.replicate k1 '0' ++ natDigits a,
      48 ≤ c.toNat ∧ c.toNat ≤ 57 := by
    intro c hc
    rcases List.mem_append.mp hc with hc | hc
    · rw [List.eq_of_mem_replicate hc]
      exact ⟨by decide, by decide⟩
    · exact natDigits_range a c hc
  have hrange2 : ∀ c ∈ List.replicate k2 '0' ++ natDigits b,
      48 ≤ c.toNat ∧ c.toNat ≤ 57 := by
    intro c hc
    rcases List.mem_append.mp hc with hc | hc
    · rw [List.eq_of_mem_replicate hc]
      exact ⟨by decide, by decide⟩
    · exact natDigits_range b c hc
  have hdata : (padStart2 (natToString a) ++ ":" ++ padStart2 (natToString b)).data =
      (List.replicate k1 '0' ++ natDigits a) ++ ':' ::
        (List.replicate k2 '0' ++ natDigits b) := by
    simp [String.data_append, h1, h2]
  unfold parseTime
  rw [hdata, splitOnColon_append _ _ (fun c hc => ne_colon_of_digit (hrange1 c hc)),
    splitOnColon_no_colon _ (fun c hc => ne_colon_of_digit (hrange2 c hc))]
  show jsNumber (List.replicate k1 '0' ++ natDigits a) * 60 +
      jsNumber (List.replicate k2 '0' ++ natDigits b) = (a : Int) * 60 + b
  rw [jsNumber_eq_jsNatNumber hrange1, jsNumber_eq_jsNatNumber hrange2,
    jsNatNumber_replicate_append, jsNatNumber_replicate_append,
    jsNatNumber_natDigits, jsNatNumber_natDigits]

theorem int_fdiv_ofNat (n : Nat) : Int.fdiv (n : Int) 60 = ((n / 60 : Nat) : Int) := by
  rw [Int.fdiv_eq_ediv _ (by omega)]
  simp [Int.ofNat_ediv]

theorem int_tmod_ofNat (n : Nat) : Int.tmod (n : Int) 60 = ((n % 60 : Nat) : Int) := by
  rw [Int.tmod_eq_emod (by omega) (by omega)]
  simp

theorem intToString_ofNat (n : Nat) : intToString ((n : Nat) : Int) = natToString n := by
  simp [intToString]

theorem parseTime_minutesToTime {t : Int} (ht : 0 ≤ t) :
    parseTime (minutesToTime t) = t := by
  obtain ⟨n, rfl⟩ := Int.eq_ofNat_of_zero_le ht
  rw [minutesToTime, int_fdiv_ofNat, int_tmod_ofNat, intToString_ofNat,
    intToString_ofNat, parseTime_pair]
  omega

theorem addMinutesToTime_minutesToTime {t : Int} (ht : 0 ≤ t) (m : Int) :
    addMinutesToTime (minutesToTime t) m = minutesToTime (t + m) := by
  rw [addMinutesToTime, parseTime_minutesToTime ht]

/-! ## Lexicographic order on rendered times versus numeric order -/

theorem charList_lt_cons_iff {a b : Char} {as bs : List Char} :
    (a :: as : List Char) < (b :: bs) ↔ (a < b ∨ (a = b ∧ as < bs)) := by
  constructor
  · intro h
    cases h with
    | rel h => exact Or.inl h
    | cons h => exact Or.inr ⟨rfl, h⟩
  · intro h
    rcases h with h | ⟨he, h⟩
    · exact List.Lex.rel h
    · rw [he]
      exact List.Lex.cons h

theorem charList_not_nil_lt_nil : ¬(([] : List Char) < []) :=
  List.Lex.not_nil_right _ _

theorem digitChar_lt_iff : ∀ d, d < 10 → ∀ e, e < 10 →
    ((digitChar d < digitChar e) ↔ d < e) := by decide

theorem digitChar_inj : ∀ d, d < 10 → ∀ e, e < 10 →
    ((digitChar d = digitChar e) ↔ d = e) := by decide

theorem pad2_data_of_lt100 {n : Nat} (h : n < 100) :
    (padStart2 (natToString n)).data = [digitChar (n / 10), digitChar (n % 10)] := by
  have h0 : '0' = digitChar 0 := by decide
  by_cases h10 : n < 10
  · have hd : natDigits n = [digitChar n] := by
      simp [natDigits, natDigitsAux, h10]
    have hlen : (natToString n).length < 2 := by
      simp [natToString, String.length, hd]
    have hlen1 : (natToString n).length = 1 := by
      simp [natToString, String.length, hd]
    have hq : n / 10 = 0 := by omega
    have hr : n % 10 = n := by omega
    unfold padStart2
    rw [if_pos hlen]
    show List.replicate (2 - (natToString n).length) '0' ++ (natToString n).data =
      [digitChar (n / 10), digitChar (n % 10)]
    have hdata : (natToString n).data = [digitChar n] := hd
    rw [hdata, hlen1, hq, hr, show List.replicate (2 - 1) '0' = [digitChar 0] from by decide]
    rfl
  · have hq : n / 10 < 10 := by omega
    have hd : natDigits n = [digitChar (n / 10), digitChar (n % 10)] := by
      have hu : natDigits n = natDigitsAux n (n / 10) ++ [digitChar (n % 10)] := by
        simp [natDigits, natDigitsAux, h10]
      rw [hu, natDigitsAux_small (by omega) hq]
      rfl
    have hlen : ¬((natToString n).length < 2) := by
      simp [natToString, String.length, hd]
    unfold padStart2
    rw [if_neg hlen]
    exact hd

theorem minutesToTime_data {t : Nat} (h : t < 6000) :
    (minutesToTime (t : Int)).data =
      [digitChar (t / 60 / 10), digitChar (t / 60 % 10), ':',
       digitChar (t % 60 / 10), digitChar (t % 60 % 10)] := by
  rw [minutesToTime, int_fdiv_ofNat, int_tmod_ofNat, intToString_ofNat,
    intToString_ofNat]
  rw [String.data_append, String.data_append]
  rw [pad2_data_of_lt100 (show t / 60 < 100 by omega),
    pad2_data_of_lt100 (show t % 60 < 100 by omega)]
  rfl

theorem digitList_lt_iff (a1 a2 a3 a4 b1 b2 b3 b4 : Nat)
    (h1 : a1 < 10) (h2 : a2 < 10) (h3 : a3 < 10) (h4 : a4 < 10)
    (g1 : b1 < 10) (g2 : b2 < 10) (g3 : b3 < 10) (g4 : b4 < 10) :
    (([digitChar a1, digitChar a2, ':', digitChar a3, digitChar a4] : List Char) <
        [digitChar b1, digitChar b2, ':', digitChar b3, digitChar b4]) ↔
      a1 * 1000 + a2 * 100 + a3 * 10 + a4 < b1 * 1000 + b2 * 100 + b3 * 10 + b4 := by
  have hcolon : ¬((':' : Char) < ':') := by decide
  rw [charList_lt_cons_iff, charList_lt_cons_iff, charList_lt_cons_iff,
    charList_lt_cons_iff, charList_lt_cons_iff,
    digitChar_lt_iff _ h1 _ g1, digitChar_inj _ h1 _ g1,
    digitChar_lt_iff _ h2 _ g2, digitChar_inj _ h2 _ g2,
    digitChar_lt_iff _ h3 _ g3, digitChar_inj _ h3 _ g3,
    digitChar_lt_iff _ h4 _ g4, digitChar_inj _ h4 _ g4]
  simp only [hcolon, charList_not_nil_lt_nil, false_and, and_false, or_false,
    false_or, true_and, and_true]
  omega

theorem jsStrLt_minutesToTime {t u : Nat} (ht : t < 6000) (hu : u < 6000) :
    jsStrLt (minutesToTime (t : Int)) (minutesToTime (u : Int)) = true ↔ t < u := by
  rw [jsStrLt, decide_eq_true_iff]
  rw [minutesToTime_data ht, minutesToTime_data hu]
  rw [digitList_lt_iff _ _ _ _ _ _ _ _ (by omega) (by omega) (by omega) (by omega)
    (by omega) (by omega) (by omega) (by omega)]
  omega

/-! ## Claim C2: overlap test versus numeric interval order -/

/-- Claim C2: for all HH:MM time-of-day values, hasTimeOverlap returns true
iff startA < endB and startB < endA under numeric minutes-since-midnight
order; in particular two intervals sharing only an endpoint do not overlap.
Times-of-day are the rendered values minutesToTime t for t < 1440. -/
theorem claim2_hasTimeOverlap_iff (sA eA sB eB : Nat)
    (h1 : sA < 1440) (h2 : eA < 1440) (h3 : sB < 1440) (h4 : eB < 1440) :
    (hasTimeOverlap (minutesToTime (sA : Int)) (minutesToTime (eA : Int))
        (minutesToTime (sB : Int)) (minutesToTime (eB : Int)) = true ↔
      (sA < eB ∧ sB < eA))
    ∧ (eA = sB →
      hasTimeOverlap (minutesToTime (sA : Int)) (minutesToTime (eA : Int))
        (minutesToTime (sB : Int)) (minutesToTime (eB : Int)) = false) := by
  have k1 := jsStrLt_minutesToTime (show sA < 6000 by omega) (show eB < 6000 by omega)
  have k2 := jsStrLt_minutesToTime (show sB < 6000 by omega) (show eA < 6000 by omega)
  constructor
  · rw [hasTimeOverlap, Bool.and_eq_true, k1, k2]
  · intro he
    have hnot : ¬(sB < eA) := by omega
    have hb : jsStrLt (minutesToTime (sB : Int)) (minutesToTime (eA : Int)) = false := by
      cases hh : jsStrLt (minutesToTime (sB : Int)) (minutesToTime (eA : Int)) with
      | false => rfl
      | true => exact absurd (k2.mp hh) hnot
    simp [hasTimeOverlap, hb]

/-- Witness for claim C2 at 19:00-21:00 versus 21:00-23:00: intervals that
touch at 21:00 do not overlap. -/
theorem claim2_hasTimeOverlap_iff_witness :
    hasTimeOverlap (minutesToTime ((1140 : Nat) : Int)) (minutesToTime ((1260 : Nat) : Int))
      (minutesToTime ((1260 : Nat) : Int)) (minutesToTime ((1380 : Nat) : Int)) = false :=
  (claim2_hasTimeOverlap_iff 1140 1260 1260 1380 (by decide) (by decide) (by decide)
    (by decide)).2 rfl

/-! ## Claim C3: the computed busy window -/

/-- Claim C3 counterexample: for a reservation at start time 00:10 with
duration 2 hours and buffer 15 minutes, the code renders the buffer start as
the malformed string "-1:-5", which denotes -65 minutes rather than
T - B = -5, so the window is not [T-B, T+D*60+B) and spans 210 rather than
the claimed D*60 + 2*B = 150 minutes. -/
theorem claim3_counterexample :
    computeBusyWindow "00:10" 2 15 = ("-1:-5", "02:25")
    ∧ parseTime "-1:-5" = -65
    ∧ ¬(parseTime (computeBusyWindow "00:10" 2 15).1 = parseTime "00:10" - 15)
    ∧ ¬(parseTime (computeBusyWindow "00:10" 2 15).2 -
          parseTime (computeBusyWindow "00:10" 2 15).1 = 2 * 60 + 2 * 15) := by
  decide

/-- Claim C3 (amended): for every reservation whose buffer does not reach
back across midnight (B at most the minutes-since-midnight of T), the
computed busy window is [T-B, T+D*60+B), an interval spanning exactly
D*60 + 2*B minutes; when B exceeds T's minutes-since-midnight the rendering
emits a malformed negative time string and the property fails. -/
theorem claim3_computeBusyWindow_spec (t D B : Nat) (ht : t < 1440) (hB : B ≤ t) :
    computeBusyWindow (minutesToTime (t : Int)) D B =
      (minutesToTime ((t : Int) - B), minutesToTime ((t : Int) + D * 60 + B))
    ∧ parseTime (computeBusyWindow (minutesToTime (t : Int)) D B).1 = (t : Int) - B
    ∧ parseTime (computeBusyWindow (minutesToTime (t : Int)) D B).2 =
        (t : Int) + D * 60 + B
    ∧ parseTime (computeBusyWindow (minutesToTime (t : Int)) D B).2 -
        parseTime (computeBusyWindow (minutesToTime (t : Int)) D B).1 =
        ((D * 60 + 2 * B : Nat) : Int) := by
  have h0 : (0 : Int) ≤ (t : Int) := by omega
  have he : computeBusyWindow (minutesToTime (t : Int)) D B =
      (minutesToTime ((t : Int) - B), minutesToTime ((t : Int) + D * 60 + B)) := by
    unfold computeBusyWindow
    rw [addMinutesToTime_minutesToTime h0, addMinutesToTime_minutesToTime h0,
      addMinutesToTime_minutesToTime
        (show (0 : Int) ≤ (t : Int) + ((D * 60 : Nat) : Int) by omega)]
    have e1 : (t : Int) + -(B : Int) = (t : Int) - B := by omega
    have e2 : (t : Int) + ((D * 60 : Nat) : Int) + (B : Int) =
        (t : Int) + D * 60 + B := by push_cast; ring
    rw [e1, e2]
  refine ⟨he, ?_, ?_, ?_⟩
  · rw [he]
    exact parseTime_minutesToTime (by omega)
  · rw [he]
    exact parseTime_minutesToTime (by omega)
  · rw [he]
    show parseTime (minutesToTime ((t : Int) + D * 60 + B)) -
        parseTime (minutesToTime ((t : Int) - B)) = ((D * 60 + 2 * B : Nat) : Int)
    rw [parseTime_minutesToTime (by omega),
      parseTime_minutesToTime (by omega)]
    push_cast
    ring

/-- Witness for claim C3 at 19:00, duration 2 hours, buffer 15 minutes: the
window spans 150 minutes. -/
theorem claim3_computeBusyWindow_spec_witness :
    parseTime (computeBusyWindow (minutesToTime ((1140 : Nat) : Int)) 2 15).2 -
        parseTime (computeBusyWindow (minutesToTime ((1140 : Nat) : Int)) 2 15).1 =
      ((2 * 60 + 2 * 15 : Nat) : Int) :=
  (claim3_computeBusyWindow_spec 1140 2 15 (by decide) (by decide)).2.2.2

/-! ## Claim C5: Scenario A on the server availability endpoint -/

/-- Claim C5 counterexample: with the existing confirmed reservation's busy
window 18:45-21:15, the availability request at 21:15 computes its own busy
window 21:00-23:30, whose leading buffer overlaps the existing window, so the
code reports the table unavailable - against the claimed availability at the
touching boundary. -/
theorem claim5_counterexample :
    availableTablesServer [sampleTable1] [sampleRes1900] "2025-01-01" "21:15" = [] := by
  decide

/-- Claim C5 (amended): with the single confirmed 19:00 reservation (busy
18:45-21:15), the requests at 21:15 and at 21:00 are both reported
unavailable - the request's own 15-minute leading buffer overlaps the
existing window at 21:15 - and 21:30, whose buffer starts exactly at 21:15,
is the touching request reported available. -/
theorem claim5_scenarioA :
    availableTablesServer [sampleTable1] [sampleRes1900] "2025-01-01" "21:15" ≠
        [sampleTable1]
    ∧ availableTablesServer [sampleTable1] [sampleRes1900] "2025-01-01" "21:00" = []
    ∧ availableTablesServer [sampleTable1] [sampleRes1900] "2025-01-01" "21:30" =
        [sampleTable1] := by
  decide

/-! ## Claim C6: chooseBestTable -/

theorem head?_orderedInsert (t : Table) (l : List Table) :
    (List.orderedInsert (fun a b => a.seats ≤ b.seats) t l).head? =
      match l.head? with
      | none => some t
      | some u => if t.seats ≤ u.seats then some t else some u := by
  cases l with
  | nil => rfl
  | cons u us =>
    by_cases h : t.seats ≤ u.seats <;> simp [List.orderedInsert, h]

theorem chooseBestTable_eq_firstMin : ∀ l : List Table,
    chooseBestTable l = firstMinBySeats l := by
  intro l
  induction l with
  | nil => rfl
  | cons t ts ih =>
    unfold chooseBestTable at ih ⊢
    show (List.orderedInsert (fun a b => a.seats ≤ b.seats) t
        (List.insertionSort (fun a b => a.seats ≤ b.seats) ts)).head? =
      firstMinBySeats (t :: ts)
    rw [head?_orderedInsert, ih]
    rfl

theorem firstMinBySeats_isSome (t : Table) (ts : List Table) :
    firstMinBySeats (t :: ts) ≠ none := by
  unfold firstMinBySeats
  cases firstMinBySeats ts with
  | none => simp
  | some u => by_cases h : t.seats ≤ u.seats <;> simp [h]

theorem firstMinBySeats_mem_min : ∀ (l : List Table) (t : Table),
    firstMinBySeats l = some t → t ∈ l ∧ ∀ u ∈ l, t.seats ≤ u.seats := by
  intro l
  induction l with
  | nil => intro t h; simp [firstMinBySeats] at h
  | cons a as ih =>
    intro t h
    unfold firstMinBySeats at h
    cases hm : firstMinBySeats as with
    | none =>
      rw [hm] at h
      cases as with
      | nil =>
        have ht : a = t := by simpa using h
        subst ht
        exact ⟨by simp, by simp⟩
      | cons b bs => exact absurd hm (firstMinBySeats_isSome b bs)
    | some u =>
      rw [hm] at h
      have h2 : (if a.seats ≤ u.seats then some a else some u) = some t := h
      obtain ⟨hmem, hmin⟩ := ih u hm
      by_cases hle : a.seats ≤ u.seats
      · rw [if_pos hle] at h2
        have ht : a = t := by simpa using h2
        subst ht
        refine ⟨by simp, ?_⟩
        intro v hv
        rcases List.mem_cons.mp hv with rfl | hv
        · exact Nat.le_refl _
        · exact Nat.le_trans hle (hmin v hv)
      · rw [if_neg hle] at h2
        have ht : u = t := by simpa using h2
        subst ht
        refine ⟨List.mem_cons_of_mem a hmem, ?_⟩
        intro v hv
        rcases List.mem_cons.mp hv with rfl | hv
        · omega
        · exact hmin v hv

/-- Claim C6 counterexample: two available four-seat candidates listed with
the table named B before the table named A: chooseBestTable returns the
first-listed B, although A precedes B in name and identifier order - the tie
is broken by candidate-list position (the sort is stable), not by
name/identifier order. -/
theorem claim6_counterexample :
    chooseBestTable [tblB, tblA] = some tblB
    ∧ tblA.seats = tblB.seats
    ∧ jsStrLt tblA.name tblB.name = true
    ∧ jsStrLt tblA.id tblB.id = true := by
  decide

/-- Claim C6 (amended): applied to the candidates that are available and have
capacity at least the party size, chooseBestTable never returns a table with
capacity below the party size; on a non-empty candidate list it returns the
candidate with the smallest capacity, ties between equal-capacity candidates
going to the earliest-listed one (the stable sort keeps candidate order, so
the result is firstMinBySeats); it returns none on the empty list. -/
theorem claim6_chooseBestTable_spec (candidates : List Table) (p : Nat)
    (hcap : ∀ t ∈ candidates, p ≤ t.seats) :
    chooseBestTable candidates = firstMinBySeats candidates
    ∧ (candidates = [] → chooseBestTable candidates = none)
    ∧ (∀ t, chooseBestTable candidates = some t →
        p ≤ t.seats ∧ t ∈ candidates ∧ ∀ u ∈ candidates, t.seats ≤ u.seats) := by
  refine ⟨chooseBestTable_eq_firstMin candidates, ?_, ?_⟩
  · rintro rfl
    rfl
  · intro t h
    rw [chooseBestTable_eq_firstMin] at h
    obtain ⟨hmem, hmin⟩ := firstMinBySeats_mem_min candidates t h
    exact ⟨hcap t hmem, hmem, hmin⟩

/-- Witness for claim C6 on a one-candidate list with party size 2. -/
theorem claim6_chooseBestTable_spec_witness :
    chooseBestTable [sampleTable1] = firstMinBySeats [sampleTable1] :=
  (claim6_chooseBestTable_spec [sampleTable1] 2 (by decide)).1

/-! ## Claim C1: conflict check and insert of createReservation -/

/-- Claim C1: for every valid createReservation request, if the freshly
fetched same-day occupying reservations of the candidate table contain one
whose busy window overlaps the requested busy window, the call fails with a
ConflictError carrying the conflicting window and the state is unchanged;
if no such overlap exists, exactly one new reservation row is inserted. -/
theorem claim1_createReservation_spec (db : List Reservation) (req : CreateRequest)
    (hv : validRequest req = true) :
    ((∃ r ∈ fetchOccupying db req.table_id req.date,
        tableHasConflict (requestWindow req.time) r = true) →
      ∃ r ∈ fetchOccupying db req.table_id req.date,
        tableHasConflict (requestWindow req.time) r = true ∧
        createReservation db req =
          (.conflictError (requestWindow req.time).1 (requestWindow req.time).2 r.time
            (addMinutesToTime r.time
              (((jsOrNat r.duration_hours RESERVATION_DURATION_HOURS) * 60 : Nat) : Int)),
           db))
    ∧ ((∀ r ∈ fetchOccupying db req.table_id req.date,
        tableHasConflict (requestWindow req.time) r = false) →
      createReservation db req =
        (.created (newReservationRow req), db ++ [newReservationRow req])) := by
  constructor
  · intro hex
    unfold createReservation
    rw [hv]
    rw [if_neg (by simp)]
    cases hfind : (fetchOccupying db req.table_id req.date).find?
        (fun r => tableHasConflict (requestWindow req.time) r) with
    | none =>
      obtain ⟨r, hr, hc⟩ := hex
      have hnone := List.find?_eq_none.mp hfind r hr
      simp [hc] at hnone
    | some r =>
      exact ⟨r, List.mem_of_find?_eq_some hfind, List.find?_some hfind, rfl⟩
  · intro hall
    unfold createReservation
    rw [hv]
    rw [if_neg (by simp)]
    cases hfind : (fetchOccupying db req.table_id req.date).find?
        (fun r => tableHasConflict (requestWindow req.time) r) with
    | some r =>
      have hc : tableHasConflict (requestWindow req.time) r = true :=
        List.find?_some hfind
      have hmem := List.mem_of_find?_eq_some hfind
      rw [hall r hmem] at hc
      cases hc
    | none =>
      rfl

/-- Witness for claim C1: with an empty database there is no overlapping
reservation and exactly one row is inserted. -/
theorem claim1_createReservation_spec_witness :
    createReservation [] sampleRequest =
      (.created (newReservationRow sampleRequest), [newReservationRow sampleRequest]) :=
  (claim1_createReservation_spec [] sampleRequest (by decide)).2 (by decide)

/-! ## Claim C4: exactly the occupying statuses block tables -/

/-- Claim C4: the availability computations (the server endpoint and the
interval-based client variant) treat exactly the statuses confirmed, arrived
and in_progress as occupying, and a reservation in any other status
(pending, completed, cancelled), wherever it sits in the day's reservation
list, never changes the set of available tables at any requested time. -/
theorem claim4_occupying_statuses (pre post : List Reservation) (r : Reservation)
    (hocc : occupying r.status = false) :
    (∀ s : RStatus, occupying s = true ↔
      (s = .confirmed ∨ s = .arrived ∨ s = .in_progress))
    ∧ (∀ tables date time,
        availableTablesServer tables (pre ++ r :: post) date time =
          availableTablesServer tables (pre ++ post) date time)
    ∧ (∀ tables date time,
        checkAvailability012 tables (pre ++ r :: post) date time =
          checkAvailability012 tables (pre ++ post) date time) := by
  refine ⟨?_, ?_, ?_⟩
  · intro s
    cases s <;> simp [occupying]
  · intro tables date time
    unfold availableTablesServer
    simp [List.filter_append, List.filter_cons, hocc]
  · intro tables date time
    unfold checkAvailability012
    simp [List.filter_append, List.filter_cons, hocc]

/-- Witness for claim C4: a pending reservation on the sample table does not
change the availability result. -/
theorem claim4_occupying_statuses_witness :
    availableTablesServer [sampleTable1] ([] ++ sampleResPending :: [])
        "2025-01-01" "19:00" =
      availableTablesServer [sampleTable1] ([] ++ []) "2025-01-01" "19:00" :=
  (claim4_occupying_statuses [] [] sampleResPending (by decide)).2.1
    [sampleTable1] "2025-01-01" "19:00"

/-! ## Claim C7: validation of createReservation -/

/-- Claim C7 counterexample: a request with party size -1 and all other
required fields present passes the truthiness validation guard - the code
never checks party size > 0 - and with an empty database it goes on to
insert a row, although the claim demands a ValidationError for any invalid
(non-positive) party size. -/
theorem claim7_counterexample :
    reqNegGuests.guests < 0
    ∧ createReservation [] reqNegGuests =
        (.created (newReservationRow reqNegGuests), [newReservationRow reqNegGuests]) := by
  decide

/-- Claim C7 (amended): createReservation fails with a ValidationError - a
single generic missing-required-fields message, not a list of fields - and
performs no write exactly when the table reference, customer name, date or
time is missing (empty) or the party size is missing (zero); it performs no
format or positivity validation beyond JS truthiness, so any request with
all five fields non-empty and a non-zero party size - even a negative one -
passes this validation step. -/
theorem claim7_validation_spec (db : List Reservation) (req : CreateRequest) :
    ((createReservation db req).1 = .validationError ↔
      (req.table_id = "" ∨ req.customer_name = "" ∨ req.guests = 0 ∨
        req.date = "" ∨ req.time = ""))
    ∧ ((createReservation db req).1 = .validationError →
        (createReservation db req).2 = db) := by
  by_cases hv : validRequest req = true
  · have hne : (createReservation db req).1 ≠ .validationError := by
      unfold createReservation
      rw [hv]
      rw [if_neg (by simp)]
      cases hfind : (fetchOccupying db req.table_id req.date).find?
          (fun r => tableHasConflict (requestWindow req.time) r) with
      | some r => simp
      | none => simp
    have hnd : ¬(req.table_id = "" ∨ req.customer_name = "" ∨ req.guests = 0 ∨
        req.date = "" ∨ req.time = "") := by
      intro hd
      unfold validRequest at hv
      rcases hd with h | h | h | h | h <;> simp [h] at hv
    exact ⟨⟨fun h => absurd h hne, fun h => absurd h hnd⟩, fun h => absurd h hne⟩
  · have hvf : validRequest req = false := by
      revert hv
      cases validRequest req <;> simp
    have heq : createReservation db req = (.validationError, db) := by
      unfold createReservation
      rw [hvf]
      rfl
    have hd : req.table_id = "" ∨ req.customer_name = "" ∨ req.guests = 0 ∨
        req.date = "" ∨ req.time = "" := by
      unfold validRequest at hvf
      simp only [Bool.not_eq_false', Bool.or_eq_true, decide_eq_true_eq] at hvf
      tauto
    exact ⟨⟨fun _ => hd, fun _ => by rw [heq]⟩, fun _ => by rw [heq]⟩

/-- Witness for claim C7: a request with an empty customer name is rejected
and the database is unchanged. -/
theorem claim7_validation_spec_witness :
    (createReservation [] reqNoName).2 = [] :=
  (claim7_validation_spec [] reqNoName).2 (by decide)

/-! ## Claim C8: unconditional status update -/

theorem filter_id_map (db : List Reservation) (id : String)
    (f : Reservation → Reservation) (hf : ∀ x, (f x).id = x.id) :
    (db.map f).filter (fun r => decide (r.id = id)) =
      (db.filter (fun r => decide (r.id = id))).map f := by
  induction db with
  | nil => rfl
  | cons a as ih =>
    simp only [List.map_cons, List.filter_cons, hf a]
    by_cases h : a.id = id
    · simp [h, ih]
    · simp [h, ih]

/-- Claim C8: updateReservationStatus(id, newStatus) writes the new status
unconditionally - the equation holds for every database, with no availability
or overlap hypothesis whatsoever - returns the updated row, and leaves every
field not supplied in the update request, and every other row, unchanged. -/
theorem claim8_updateStatus_spec (db : List Reservation) (id : String) (s : RStatus)
    (r : Reservation) (h : db.filter (fun x => decide (x.id = id)) = [r]) :
    (∀ x : Reservation, applyUpdate x (statusOnlyUpdate s) = { x with status := s })
    ∧ patchReservation db id (statusOnlyUpdate s) =
        (some { r with status := s },
         db.map (fun x => if x.id = id then { x with status := s } else x)) := by
  have happ : ∀ x : Reservation,
      applyUpdate x (statusOnlyUpdate s) = { x with status := s } := by
    intro x
    rfl
  refine ⟨happ, ?_⟩
  have hid : r.id = id := by
    have hmem : r ∈ db.filter (fun x => decide (x.id = id)) := by
      rw [h]
      exact List.mem_singleton_self r
    simpa using List.of_mem_filter hmem
  unfold patchReservation updateReservationById
  have hmapeq : (fun x => if x.id = id then applyUpdate x (statusOnlyUpdate s) else x) =
      (fun x => if x.id = id then { x with status := s } else x) := by
    funext x
    rw [happ x]
  rw [hmapeq]
  rw [filter_id_map db id _
    (fun x => by by_cases hx : x.id = id <;> simp [hx]), h]
  simp [hid]

/-- Witness for claim C8: cancelling the sample reservation updates only its
status and returns the updated row. -/
theorem claim8_updateStatus_spec_witness :
    patchReservation [sampleRes1900] "r1" (statusOnlyUpdate .cancelled) =
      (some { sampleRes1900 with status := .cancelled },
       [sampleRes1900].map (fun x =>
         if x.id = "r1" then { x with status := RStatus.cancelled } else x)) :=
  (claim8_updateStatus_spec [sampleRes1900] "r1" .cancelled sampleRes1900 (by decide)).2

/-! ## Claim C9: phone-order totals and price snapshots -/

/-- Claim C9: the stored total_amount of a phone order equals the sum over
its stored line items of price times quantity, and each stored line item's
price and quantity are the snapshot of the referenced menu item's price and
the ordered quantity at creation time.  The stored order references menu
items by id only, so a later change to a menu price cannot alter the stored
line prices or the stored total. -/
theorem claim9_order_total_snapshot (reservationId tableId : String)
    (orderItems : List OrderItem) :
    (createPhoneOrder reservationId tableId orderItems).total_amount =
      lineTotal (createPhoneOrder reservationId tableId orderItems).items
    ∧ (∀ k : Nat,
        ((createPhoneOrder reservationId tableId orderItems).items[k]?).map
            (fun l => l.price) =
          (orderItems[k]?).map (fun item => item.menu_item.price))
    ∧ (∀ k : Nat,
        ((createPhoneOrder reservationId tableId orderItems).items[k]?).map
            (fun l => l.quantity) =
          (orderItems[k]?).map (fun item => item.quantity)) := by
  refine ⟨?_, ?_, ?_⟩
  · simp only [createPhoneOrder]
    unfold lineTotal calculateTotal
    rw [List.foldl_map]
  · intro k
    simp only [createPhoneOrder]
    rw [List.getElem?_map]
    cases orderItems[k]? <;> rfl
  · intro k
    simp only [createPhoneOrder]
    rw [List.getElem?_map]
    cases orderItems[k]? <;> rfl

/-! ## Claim C10: the two customer-booking availability variants -/

/-- Claim C10 analysis: the whole-day variant of part_011 chains
eq('status','confirmed') with or(arrived, in_progress); PostgREST combines
chained filters conjunctively, so the status condition is unsatisfiable, no
reservation is ever counted as occupying, and the variant reports every
table available at every time - while the interval-based variant of part_012
reports the sample table unavailable at the overlapping 19:00 request.  The
two variants are indeed inequivalent, but in the direction opposite to the
claim: part_011 never reports a table unavailable. -/
theorem claim10_part011_filter_unsatisfiable :
    (∀ (reservations : List Reservation) (date : String),
      reservations.filter (fun r =>
        decide (r.date = date) &&
          (decide (r.status = .confirmed) &&
            (decide (r.status = .arrived) || decide (r.status = .in_progress)))) = [])
    ∧ (∀ tables reservations date,
        checkAvailability011 tables reservations date = tables)
    ∧ checkAvailability011 [sampleTable1] [sampleRes1900] "2025-01-01" = [sampleTable1]
    ∧ checkAvailability012 [sampleTable1] [sampleRes1900] "2025-01-01" "19:00" = [] := by
  have hfilter : ∀ (reservations : List Reservation) (date : String),
      reservations.filter (fun r =>
        decide (r.date = date) &&
          (decide (r.status = .confirmed) &&
            (decide (r.status = .arrived) || decide (r.status = .in_progress)))) = [] := by
    intro res date
    rw [List.filter_eq_nil_iff]
    intro r hr
    cases hst : r.status <;> simp [hst]
  refine ⟨hfilter, ?_, by decide, by decide⟩
  intro tables res date
  unfold checkAvailability011
  rw [hfilter]
  simp
